import Mathlib

/-!
Shallow embedding of the reporting layer of the semester2-week2 repository:
`src/session_1/3_python/leeds_eats/leeds_eats.py` (namespace `LeedsEats`) and
`src/session_2/base.py` (namespace `Base`).

Modelling conventions:
* SQL tables are lists of records; SQL NULL is `Option`; money amounts are
  exact rationals `ℚ` (the scripts use SQLite numeric values via Python
  floats; the claims under study do not depend on binary floating point
  artefacts, so amounts are modelled exactly).
* A SQL query is translated join-by-join: an inner join is a `flatMap` over
  matching rows, a left join produces a single all-`none` row when no row
  matches, `GROUP BY` is grouping by the first occurrence of each key,
  `ORDER BY ... DESC` is a sort by the ranking key.
* Python `f"{x:.2f}"` applied to a SQL NULL raises `TypeError`; where that
  matters (`order_summary_stats`) the print sequence is modelled as the data
  printed so far plus an optional raised error.
* `pandas.DataFrame.round(2)` is modelled as exact rounding of rationals to
  two decimal places (`round2`); the claims only use that the rounded value
  is within 1/200 of the exact one.
-/

/-- Rounding of a rational to two decimal places, modelling the 2-dp rounding
performed by `round(2)` / `:.2f` in the scripts. -/
def round2 (q : ℚ) : ℚ := (round (q * 100) : ℚ) / 100

/-- First-occurrence grouping: keep the first row of each group key, in table
order, as `GROUP BY` does for the representative row in SQLite. -/
def distinctBy {α β : Type} [DecidableEq β] (k : α → β) : List α → List α
  | [] => []
  | x :: xs => x :: distinctBy k (xs.filter fun y => decide (¬ k y = k x))
termination_by l => l.length
decreasing_by
  simp only [List.length_cons]
  exact Nat.lt_succ_of_le (List.length_filter_le _ _)

/-- Arithmetic mean of a list of rationals (`DataFrame.mean()`). -/
def meanQ (xs : List ℚ) : ℚ := xs.sum / xs.length

namespace LeedsEats

/-- Row of the `customers` table of `food_delivery.db`. -/
structure Customer where
  customer_id : Nat
  customer_name : String
deriving DecidableEq

/-- Row of the `orders` table of `food_delivery.db`. -/
structure Order where
  order_id : Nat
  customer_id : Nat
  order_total : ℚ
  order_date : String
deriving DecidableEq

/-- Row of the `deliveries` table of `food_delivery.db`; `driver_id` and
`delivery_date` are nullable. -/
structure Delivery where
  delivery_id : Nat
  order_id : Nat
  driver_id : Option Nat
  delivery_date : Option String
deriving DecidableEq

/-- Row of the `drivers` table of `food_delivery.db`. -/
structure Driver where
  driver_id : Nat
  driver_name : String
deriving DecidableEq

/-- The database state read by `leeds_eats.py`. -/
structure DB where
  customers : List Customer
  orders : List Order
  deliveries : List Delivery
  drivers : List Driver

/-- SQL `AVG` over a column: `NULL` on an empty table. -/
def sqlAvg (xs : List ℚ) : Option ℚ :=
  if xs.isEmpty then none else some (xs.sum / xs.length)

/-- SQL `MAX` over a column: `NULL` on an empty table. -/
def sqlMax (xs : List ℚ) : Option ℚ := xs.max?

/-- SQL `MIN` over a column: `NULL` on an empty table. -/
def sqlMin (xs : List ℚ) : Option ℚ := xs.min?

/-- Result of running `order_summary_stats`: the fields actually printed, in
print order, and the error raised, if any.  Python prints the row count with
plain `{result[0]}` (never raises), then formats average, highest and lowest
with `{...:.2f}`, which raises `TypeError` on a `None` (SQL NULL) value; the
fields after the first raising format are never printed. -/
structure SummaryOut where
  total_orders : Nat
  printed_avg : Option ℚ
  printed_max : Option ℚ
  printed_min : Option ℚ
  error : Option String
deriving DecidableEq

/-- Message of the `TypeError` Python raises when a `None` meets `:.2f`. -/
def noneFormatError : String :=
  "TypeError: unsupported format string passed to NoneType.__format__"

/-- Embedding of `order_summary_stats(conn)` (leeds_eats.py, lines 21-35):
one aggregate row `COUNT, AVG, MAX, MIN` over `orders`, printed field by
field; a NULL aggregate aborts the printing with a `TypeError`. -/
def order_summary_stats (orders : List ℚ) : SummaryOut :=
  let cnt := orders.length
  match sqlAvg orders, sqlMax orders, sqlMin orders with
  | none, _, _ => ⟨cnt, none, none, none, some noneFormatError⟩
  | some a, none, _ => ⟨cnt, some (round2 a), none, none, some noneFormatError⟩
  | some a, some h, none => ⟨cnt, some (round2 a), some (round2 h), none, some noneFormatError⟩
  | some a, some h, some l => ⟨cnt, some (round2 a), some (round2 h), some (round2 l), none⟩

/-- Embedding of `orders_per_customer(conn)` (leeds_eats.py, lines 55-70):
`customers LEFT JOIN orders` grouped by `customer_id`, producing
`(customer_name, COUNT(order_id), COALESCE(SUM(order_total), 0))` per
customer, ordered by total spent descending.  A customer with no orders
yields one all-NULL joined row, hence count 0 and sum 0. -/
def orders_per_customer (db : DB) : List (String × Nat × ℚ) :=
  List.insertionSort (fun a b => b.2.2 ≤ a.2.2)
    ((distinctBy Customer.customer_id db.customers).map fun c =>
      (c.customer_name,
        (db.orders.filter fun o => decide (o.customer_id = c.customer_id)).length,
        ((db.orders.filter fun o => decide (o.customer_id = c.customer_id)).map
          Order.order_total).sum))

/-- Embedding of `driver_workload(conn)` (leeds_eats.py, lines 73-87):
`drivers LEFT JOIN deliveries ON d.driver_id = del.driver_id` grouped by
`driver_id`, counting `delivery_id` (so 0 for a driver with no deliveries;
a NULL `del.driver_id` matches no driver), ordered descending. -/
def driver_workload (db : DB) : List (String × Nat) :=
  List.insertionSort (fun a b => b.2 ≤ a.2)
    ((distinctBy Driver.driver_id db.drivers).map fun d =>
      (d.driver_name,
        (db.deliveries.filter fun del => decide (del.driver_id = some d.driver_id)).length))

/-- One row of the `delivery_lookup_by_id` query:
`orders JOIN customers LEFT JOIN deliveries LEFT JOIN drivers`. -/
structure LookupRow where
  order_id : Nat
  customer_name : String
  order_total : ℚ
  delivery_date : Option String
  driver_name : Option String
deriving DecidableEq

/-- Join underlying `delivery_lookup_by_id` (leeds_eats.py, lines 90-104):
all rows for the given order id, in table order.  The left joins produce a
single row with NULL delivery/driver fields when nothing matches. -/
def lookupRows (db : DB) (oid : Nat) : List LookupRow :=
  (db.orders.filter fun o => decide (o.order_id = oid)).flatMap fun o =>
    (db.customers.filter fun c => decide (c.customer_id = o.customer_id)).flatMap fun c =>
      match db.deliveries.filter fun del => decide (del.order_id = o.order_id) with
      | [] => [⟨o.order_id, c.customer_name, o.order_total, none, none⟩]
      | del :: dels => (del :: dels).flatMap fun dl =>
          match dl.driver_id with
          | none => [⟨o.order_id, c.customer_name, o.order_total, dl.delivery_date, none⟩]
          | some did =>
            match db.drivers.filter fun dr => decide (dr.driver_id = did) with
            | [] => [⟨o.order_id, c.customer_name, o.order_total, dl.delivery_date, none⟩]
            | dr :: drs => (dr :: drs).map fun dr2 =>
                ⟨o.order_id, c.customer_name, o.order_total, dl.delivery_date, some dr2.driver_name⟩

/-- What `delivery_lookup_by_id` prints: either the not-found message or the
five report fields.  `total2dp` is the order total as displayed with `:.2f`;
`dateField` and `driverField` carry the fallback text for missing data. -/
inductive LookupOutput where
  | notFound (oid : Nat)
  | found (oid : Nat) (customer : String) (total2dp : ℚ) (dateField driverField : String)
deriving DecidableEq

/-- Python `x if x else fallback` on a nullable string: `None` and the empty
string are falsy. -/
def pyTruthyOr (v : Option String) (fallback : String) : String :=
  match v with
  | none => fallback
  | some s => if s = "" then fallback else s

/-- Embedding of `delivery_lookup_by_id(conn, order_id)` (leeds_eats.py,
lines 90-113): `fetchone` takes the first joined row; no row prints the
not-found message, otherwise the report is printed with `Not delivered yet` /
`Not assigned` standing in for falsy delivery date / driver name. -/
def delivery_lookup_by_id (db : DB) (oid : Nat) : LookupOutput :=
  match (lookupRows db oid).head? with
  | none => .notFound oid
  | some r => .found r.order_id r.customer_name (round2 r.order_total)
      (pyTruthyOr r.delivery_date "Not delivered yet")
      (pyTruthyOr r.driver_name "Not assigned")

/-- Embedding of `top_customers_by_spend(conn, limit)` (leeds_eats.py, lines
168-185): `customers JOIN orders` (inner join) grouped by `customer_id`, so
only customers with at least one order form groups; ordered by total spend
descending, limited to `limit` rows. -/
def top_customers_by_spend (db : DB) (limit : Nat) : List (String × ℚ) :=
  (List.insertionSort (fun a b => b.2 ≤ a.2)
    (((distinctBy Customer.customer_id db.customers).filter fun c =>
        decide (¬ (db.orders.filter fun o => decide (o.customer_id = c.customer_id)) = [])).map
      fun c =>
        (c.customer_name,
          ((db.orders.filter fun o => decide (o.customer_id = c.customer_id)).map
            Order.order_total).sum))).take limit

/-- One printed row of `high_value_orders`. -/
structure HVRow where
  order_id : Nat
  customer_name : String
  order_total : ℚ
  order_date : String
deriving DecidableEq

/-- Embedding of the query of `high_value_orders(conn, threshold)`
(leeds_eats.py, lines 207-228): `orders JOIN customers` filtered by
`order_total > threshold`, ordered by `order_total` descending. -/
def high_value_orders (db : DB) (threshold : ℚ) : List HVRow :=
  List.insertionSort (fun a b => b.order_total ≤ a.order_total)
    ((db.orders.filter fun o => decide (threshold < o.order_total)).flatMap fun o =>
      (db.customers.filter fun c => decide (c.customer_id = o.customer_id)).map fun c =>
        ⟨o.order_id, c.customer_name, o.order_total, o.order_date⟩)

/-- The closing message of `high_value_orders`: printed exactly when the row
count is zero (`if count == 0`). -/
def high_value_orders_message (db : DB) (threshold : ℚ) : Option String :=
  if (high_value_orders db threshold).length = 0 then
    some "No orders found above this threshold."
  else none

end LeedsEats

namespace Base

/-- Row of the `customers` table of `orders.db`. -/
structure Customer where
  customer_id : Nat
  first_name : String
  last_name : String
  email : String
deriving DecidableEq

/-- Row of the `orders` table of `orders.db`. -/
structure Order where
  order_id : Nat
  customer_id : Nat
  order_date : String
  status : String
  total_amount : ℚ
deriving DecidableEq

/-- Row of the `order_items` table of `orders.db`. -/
structure OrderItem where
  order_id : Nat
  product_id : Nat
  quantity : Nat
  unit_price : ℚ
deriving DecidableEq

/-- Row of the `products` table of `orders.db`. -/
structure Product where
  product_id : Nat
  name : String
  category : String
  price : ℚ
deriving DecidableEq

/-- Row of the `deliveries` table of `orders.db`. -/
structure Delivery where
  order_id : Nat
  delivery_status : String
  delivery_window : String
deriving DecidableEq

/-- The database state read by `base.py`. -/
structure DB where
  customers : List Customer
  orders : List Order
  order_items : List OrderItem
  products : List Product
  deliveries : List Delivery

/-- One output row of `task5_total_spent_per_customer`. -/
structure Row5 where
  customer_id : Nat
  first_name : String
  last_name : String
  email : String
  total_spent : ℚ
deriving DecidableEq

/-- Embedding of `task5_total_spent_per_customer(conn, top_n)` (base.py,
lines 78-92): `customers JOIN orders` (inner join) grouped by `customer_id`
(so only customers with at least one order appear), summing `total_amount`,
ordered descending, limited to `top_n` rows. -/
def task5_total_spent_per_customer (db : DB) (top_n : Nat) : List Row5 :=
  (List.insertionSort (fun a b : Row5 => b.total_spent ≤ a.total_spent)
    (((distinctBy Customer.customer_id db.customers).filter fun c =>
        decide (¬ (db.orders.filter fun o => decide (o.customer_id = c.customer_id)) = [])).map
      fun c =>
        ⟨c.customer_id, c.first_name, c.last_name, c.email,
          ((db.orders.filter fun o => decide (o.customer_id = c.customer_id)).map
            Order.total_amount).sum⟩)).take top_n

/-- A pivoted report: its index (one entry per group key), its column names
in layout order, and the numeric value each cell holds. -/
structure PivotTable (κ : Type) where
  rowKeys : List κ
  cols : List String
  cell : κ → String → ℚ

/-- Embedding of `task13_delivery_performance_by_window(conn)` (base.py,
lines 256-282): counts per `(delivery_window, delivery_status)` pivoted to
one row per window and one column per observed status, missing combinations
filled with 0 (`.fillna(0)`).  No total or percentage columns are added. -/
def task13_delivery_performance_by_window (db : DB) : PivotTable String :=
  let ds := db.deliveries.map fun d => (d.delivery_window, d.delivery_status)
  { rowKeys := (ds.map Prod.fst).dedup
    cols := (ds.map Prod.snd).dedup
    cell := fun w s => (ds.count (w, s) : ℚ) }

/-- Join feeding `task16_delivery_performance_by_customer` (base.py, lines
362-369): `customers JOIN orders JOIN deliveries`, one row per delivery,
keyed by `(customer_id, first_name, last_name)` with its delivery status. -/
def customerStatusRows (db : DB) : List ((Nat × String × String) × String) :=
  db.customers.flatMap fun c =>
    (db.orders.filter fun o => decide (o.customer_id = c.customer_id)).flatMap fun o =>
      (db.deliveries.filter fun d => decide (d.order_id = o.order_id)).map fun d =>
        ((c.customer_id, c.first_name, c.last_name), d.delivery_status)

/-- The distinct delivery statuses observed by the `task16` query, in order
of first observation. -/
def observedStatuses16 (db : DB) : List String :=
  ((customerStatusRows db).map Prod.snd).dedup

/-- The fixed status list hard-coded at base.py line 378. -/
def fixedStatusList : List String := ["delivered", "failed", "scheduled"]

/-- Count cell of the `task16` pivot (`fill_value=0` makes it 0 whenever the
pair never occurs). -/
def cnt16 (db : DB) (k : Nat × String × String) (s : String) : ℚ :=
  ((customerStatusRows db).count (k, s) : ℚ)

/-- The `total` column of the `task16` pivot: `pivot_df.sum(axis=1)` over the
observed status columns. -/
def total16 (db : DB) (k : Nat × String × String) : ℚ :=
  ((observedStatuses16 db).map (cnt16 db k)).sum

/-- Embedding of `task16_delivery_performance_by_customer(conn)` (base.py,
lines 360-410): pivot of delivery counts by customer and status with
`fill_value=0`, then a `total` column summing the status columns, then, for
each of the hard-coded statuses `delivered`, `failed`, `scheduled` that is
present among the observed columns, a `<status>_pct` column holding
`count / total * 100` rounded to two decimals. -/
def task16_delivery_performance_by_customer (db : DB) : PivotTable (Nat × String × String) :=
  { rowKeys := ((customerStatusRows db).map Prod.fst).dedup
    cols := observedStatuses16 db ++ ["total"] ++
      ((fixedStatusList.filter fun c => decide (c ∈ observedStatuses16 db)).map fun c =>
        c ++ "_pct")
    cell := fun k s =>
      if s = "total" then total16 db k
      else if s = "delivered_pct" then round2 (cnt16 db k "delivered" / total16 db k * 100)
      else if s = "failed_pct" then round2 (cnt16 db k "failed" / total16 db k * 100)
      else if s = "scheduled_pct" then round2 (cnt16 db k "scheduled" / total16 db k * 100)
      else cnt16 db k s }

/-- Join feeding `task15_category_cooccurrence` (base.py, lines 316-321):
`order_items JOIN products`, giving one `(order_id, category)` row per line
item. -/
def itemCategoryRows (db : DB) : List (Nat × String) :=
  db.order_items.flatMap fun oi =>
    (db.products.filter fun p => decide (p.product_id = oi.product_id)).map fun p =>
      (oi.order_id, p.category)

/-- Distinct order ids appearing in the item/category join (the groupby keys
of base.py line 324). -/
def orderIds (rows : List (Nat × String)) : List Nat :=
  (rows.map Prod.fst).dedup

/-- Distinct categories of one order (`list(set(x))` at base.py line 324). -/
def orderCats (rows : List (Nat × String)) (oid : Nat) : List String :=
  ((rows.filter fun r => decide (r.1 = oid)).map Prod.snd).dedup

/-- All index pairs `(cats[i], cats[j])` with `i < j`, as produced by
`itertools.combinations(cats, 2)` (base.py line 334). -/
def pairs : List String → List (String × String)
  | [] => []
  | c :: cs => (cs.map fun d => (c, d)) ++ pairs cs

/-- One iteration of the co-occurrence loop (base.py lines 330-336) on the
matrix `M`: `M[cat][cat] += 1` for each `cat` in the order, then
`M[cat1][cat2] += 1` and `M[cat2][cat1] += 1` for each combination pair. -/
def addOrder (M : String → String → Nat) (cats : List String) : String → String → Nat :=
  fun a b => M a b
    + (if a = b then cats.count a else 0)
    + (pairs cats).count (a, b)
    + (pairs cats).count (b, a)

/-- The co-occurrence matrix built from the per-order category lists,
starting from the all-zero frame of base.py line 328. -/
def coMatrix (catLists : List (List String)) : String → String → Nat :=
  catLists.foldl addOrder (fun _ _ => 0)

/-- Embedding of `task15_category_cooccurrence(conn)` (base.py, lines
314-357) as the entry function of the printed matrix: categories outside the
frame index never receive an increment, so the model returns 0 there. -/
def task15_category_cooccurrence (db : DB) : String → String → Nat :=
  let rows := itemCategoryRows db
  coMatrix ((orderIds rows).map (orderCats rows))

/-- Daily revenue totals over a list of `(date, total_amount)` orders: one
`(date, SUM(total_amount))` row per distinct date, ordered by date
(the `GROUP BY DATE(order_date) ORDER BY date` of task 17).  Dates are
modelled as integers (day numbers). -/
def dailyRevenue (os : List (Int × ℚ)) : List (Int × ℚ) :=
  (List.insertionSort (fun a b : Int => a ≤ b) ((os.map Prod.fst).dedup)).map fun d =>
    (d, ((os.filter fun o => decide (o.1 = d)).map Prod.snd).sum)

/-- Embedding of `task17_forecast_revenue(conn)` (base.py, lines 413-475):
daily revenue of orders dated within the trailing 30 days of `now`; if that
result set is empty, a second query over all orders; `none` (the printed
`Not enough data to forecast.`) when fewer than 2 daily rows remain,
otherwise the mean daily revenue times 7. -/
def task17_forecast_revenue (now : Int) (orders : List (Int × ℚ)) : Option ℚ :=
  let df := dailyRevenue (orders.filter fun o => decide (now - 30 ≤ o.1))
  let df2 := if df.isEmpty then dailyRevenue orders else df
  if df2.length < 2 then none
  else some (meanQ (df2.map Prod.snd) * 7)

end Base

/-! Claim C1: behaviour of the order summary statistics on an empty orders
table. -/

/-- Claim C1, counterexample: on an empty orders table the aggregate row is
`(0, NULL, NULL, NULL)` and `order_summary_stats` DOES raise: formatting the
NULL average with `:.2f` fails with a `TypeError`, contradicting the claim
that the report does not raise and renders the NULL aggregates as a
placeholder. -/
theorem order_summary_stats_empty_table_raises :
    (LeedsEats.order_summary_stats []).error = some LeedsEats.noneFormatError := by
  decide

/-- Claim C1, amended: on an empty orders table `order_summary_stats` prints
the count as 0, then raises a `TypeError` while formatting the NULL average
with `:.2f`; the NULL average/max/min are never rendered (no placeholder). -/
theorem order_summary_stats_empty_table_behavior :
    LeedsEats.order_summary_stats [] =
      ⟨0, none, none, none, some LeedsEats.noneFormatError⟩ := by
  decide

/-! Claim C4 and C5: the task 17 revenue forecast. -/

/-- Helper: a list of positive length is not `isEmpty`. -/
theorem isEmpty_eq_false_of_pos {α : Type} {l : List α} (h : 0 < l.length) :
    l.isEmpty = false := by
  cases l with
  | nil => simp at h
  | cons a t => rfl

/-- Helper: the number of daily-revenue rows is the number of distinct order
dates. -/
theorem dailyRevenue_length (os : List (Int × ℚ)) :
    (Base.dailyRevenue os).length = ((os.map Prod.fst).dedup).length := by
  unfold Base.dailyRevenue
  rw [List.length_map, (List.perm_insertionSort _ _).length_eq]

/-- Claim C4: whenever the selected window of daily revenue totals has at
least 2 rows — whether the trailing-30-days window, or the all-history
fallback taken when that window is empty — the forecast is the arithmetic
mean of those daily totals multiplied by 7. -/
theorem task17_forecast_is_mean_times_seven (now : Int) (orders : List (Int × ℚ)) :
    (2 ≤ (Base.dailyRevenue (orders.filter fun o => decide (now - 30 ≤ o.1))).length →
      Base.task17_forecast_revenue now orders =
        some (meanQ ((Base.dailyRevenue (orders.filter fun o => decide (now - 30 ≤ o.1))).map
          Prod.snd) * 7)) ∧
    (Base.dailyRevenue (orders.filter fun o => decide (now - 30 ≤ o.1)) = [] →
      2 ≤ (Base.dailyRevenue orders).length →
      Base.task17_forecast_revenue now orders =
        some (meanQ ((Base.dailyRevenue orders).map Prod.snd) * 7)) := by
  constructor
  · intro h
    have hne := isEmpty_eq_false_of_pos (by omega :
      0 < (Base.dailyRevenue (orders.filter fun o => decide (now - 30 ≤ o.1))).length)
    have hlt : ¬ (Base.dailyRevenue (orders.filter fun o => decide (now - 30 ≤ o.1))).length < 2 :=
      by omega
    simp only [Base.task17_forecast_revenue, hne, Bool.false_eq_true, if_false, if_neg hlt]
  · intro he h
    have hlt : ¬ (Base.dailyRevenue orders).length < 2 := by omega
    simp only [Base.task17_forecast_revenue, he, List.isEmpty_nil, if_true, if_neg hlt]

/-- Claim C4, witness: for one order of 10, 20 and 30 on three distinct days
inside the trailing window, the forecast is `mean(10,20,30) * 7 = 140`. -/
theorem task17_forecast_is_mean_times_seven_witness :
    2 ≤ (Base.dailyRevenue ([((100:Int), (10:ℚ)), (99, 20), (98, 30)].filter fun o =>
      decide ((100:Int) - 30 ≤ o.1))).length ∧
    Base.task17_forecast_revenue 100 [((100:Int), (10:ℚ)), (99, 20), (98, 30)] = some 140 := by
  refine ⟨by decide, ?_⟩
  have h := (task17_forecast_is_mean_times_seven 100
    [((100:Int), (10:ℚ)), (99, 20), (98, 30)]).1 (by decide)
  rw [h]
  norm_num [Base.dailyRevenue, meanQ, List.insertionSort, List.orderedInsert]

/-- Claim C5: the forecast is two-tier.  If some order falls in the trailing
30 days, the result is computed from the trailing window alone (insufficient
below 2 distinct days, mean times 7 otherwise); if no order does, the result
is computed from all available history alone, with the same insufficiency
rule.  The two windows are never blended, and a window's row count is its
number of distinct order dates. -/
theorem task17_fallback_and_insufficiency (now : Int) (orders : List (Int × ℚ)) :
    ((∃ o ∈ orders, now - 30 ≤ o.1) →
      Base.task17_forecast_revenue now orders =
        (if (Base.dailyRevenue (orders.filter fun o => decide (now - 30 ≤ o.1))).length < 2
          then none
          else some (meanQ ((Base.dailyRevenue (orders.filter fun o =>
            decide (now - 30 ≤ o.1))).map Prod.snd) * 7))) ∧
    ((∀ o ∈ orders, ¬ (now - 30 ≤ o.1)) →
      Base.task17_forecast_revenue now orders =
        (if (Base.dailyRevenue orders).length < 2 then none
          else some (meanQ ((Base.dailyRevenue orders).map Prod.snd) * 7))) ∧
    (Base.dailyRevenue orders).length = ((orders.map Prod.fst).dedup).length := by
  refine ⟨?_, ?_, dailyRevenue_length orders⟩
  · rintro ⟨o, ho, hrec⟩
    have hmem : o ∈ orders.filter fun o => decide (now - 30 ≤ o.1) := by
      rw [List.mem_filter]
      exact ⟨ho, by simpa using hrec⟩
    have hpos : 0 < (Base.dailyRevenue (orders.filter fun o => decide (now - 30 ≤ o.1))).length := by
      rw [dailyRevenue_length]
      exact List.length_pos_of_mem (List.mem_dedup.mpr (List.mem_map.mpr ⟨o, hmem, rfl⟩))
    have hne := isEmpty_eq_false_of_pos hpos
    simp only [Base.task17_forecast_revenue, hne, Bool.false_eq_true, if_false]
  · intro h
    have hflt : (orders.filter fun o => decide (now - 30 ≤ o.1)) = [] := by
      rw [List.filter_eq_nil_iff]
      intro a ha
      simpa using h a ha
    simp only [Base.task17_forecast_revenue, hflt]
    simp [Base.dailyRevenue, List.insertionSort]

/-- Claim C5, witness: with no orders at all, the fallback query also has no
rows, and the forecast reports insufficiency (no numeric projection). -/
theorem task17_fallback_and_insufficiency_witness :
    (∀ o ∈ ([] : List (Int × ℚ)), ¬ ((0:Int) - 30 ≤ o.1)) ∧
    Base.task17_forecast_revenue 0 [] = none := by
  refine ⟨by simp, ?_⟩
  have h := (task17_fallback_and_insufficiency 0 []).2.1 (by simp)
  rw [h]
  decide

/-! Claim C8: the high-value orders report. -/

/-- Claim C8: the high-value orders report holds exactly the joined orders
whose total strictly exceeds the threshold (sound and, for every order whose
customer row exists, complete), sorted descending by order total; and when no
order exceeds the threshold it returns no rows and prints the explicit
empty-result message. -/
theorem high_value_orders_exact_sorted_empty (db : LeedsEats.DB) (thr : ℚ) :
    (∀ r ∈ LeedsEats.high_value_orders db thr, thr < r.order_total ∧
      ∃ o ∈ db.orders, ∃ c ∈ db.customers, c.customer_id = o.customer_id ∧
        r = ⟨o.order_id, c.customer_name, o.order_total, o.order_date⟩) ∧
    (∀ o ∈ db.orders, thr < o.order_total → ∀ c ∈ db.customers,
      c.customer_id = o.customer_id →
      (⟨o.order_id, c.customer_name, o.order_total, o.order_date⟩ : LeedsEats.HVRow) ∈
        LeedsEats.high_value_orders db thr) ∧
    List.Sorted (fun a b : LeedsEats.HVRow => b.order_total ≤ a.order_total)
      (LeedsEats.high_value_orders db thr) ∧
    ((∀ o ∈ db.orders, o.order_total ≤ thr) →
      LeedsEats.high_value_orders db thr = [] ∧
      LeedsEats.high_value_orders_message db thr =
        some "No orders found above this threshold.") := by
  refine ⟨?_, ?_, ?_, ?_⟩
  · intro r hr
    unfold LeedsEats.high_value_orders at hr
    rw [(List.perm_insertionSort _ _).mem_iff] at hr
    simp only [List.mem_flatMap, List.mem_map, List.mem_filter, decide_eq_true_eq] at hr
    rcases hr with ⟨o, ⟨ho, hgt⟩, c, ⟨hc, hcid⟩, rfl⟩
    exact ⟨hgt, o, ho, c, hc, hcid, rfl⟩
  · intro o ho hgt c hc hcid
    unfold LeedsEats.high_value_orders
    rw [(List.perm_insertionSort _ _).mem_iff]
    simp only [List.mem_flatMap, List.mem_map, List.mem_filter, decide_eq_true_eq]
    exact ⟨o, ⟨ho, hgt⟩, c, ⟨hc, hcid⟩, rfl⟩
  · haveI : IsTotal LeedsEats.HVRow (fun a b => b.order_total ≤ a.order_total) :=
      ⟨fun a b => le_total _ _⟩
    haveI : IsTrans LeedsEats.HVRow (fun a b => b.order_total ≤ a.order_total) :=
      ⟨fun _ _ _ h1 h2 => le_trans h2 h1⟩
    exact List.sorted_insertionSort _ _
  · intro h
    have hflt : db.orders.filter (fun o => decide (thr < o.order_total)) = [] := by
      rw [List.filter_eq_nil_iff]
      intro o ho
      simpa using not_lt.mpr (h o ho)
    have hrows : LeedsEats.high_value_orders db thr = [] := by
      unfold LeedsEats.high_value_orders
      rw [hflt]
      rfl
    refine ⟨hrows, ?_⟩
    unfold LeedsEats.high_value_orders_message
    rw [hrows]
    rfl

/-- Claim C8, witness: with a single order of total 500 and threshold
1000000, the report returns no rows and the explicit empty message. -/
theorem high_value_orders_exact_sorted_empty_witness :
    (∀ o ∈ (⟨[⟨1, "alice"⟩], [⟨10, 1, 500, "2024-01-01"⟩], [], []⟩ :
        LeedsEats.DB).orders, o.order_total ≤ (1000000:ℚ)) ∧
    LeedsEats.high_value_orders
      (⟨[⟨1, "alice"⟩], [⟨10, 1, 500, "2024-01-01"⟩], [], []⟩ : LeedsEats.DB) 1000000 = [] ∧
    LeedsEats.high_value_orders_message
      (⟨[⟨1, "alice"⟩], [⟨10, 1, 500, "2024-01-01"⟩], [], []⟩ : LeedsEats.DB) 1000000 =
      some "No orders found above this threshold." := by
  refine ⟨by decide, ?_⟩
  exact (high_value_orders_exact_sorted_empty
    (⟨[⟨1, "alice"⟩], [⟨10, 1, 500, "2024-01-01"⟩], [], []⟩ : LeedsEats.DB) 1000000).2.2.2
    (by decide)

/-! Claim C6: the point lookup by order id. -/

/-- Claim C6: looking up an order id that matches no order prints the
not-found message (and nothing raises); when the order and its customer
exist but the order has no delivery row, the delivery date field is the
fallback text `Not delivered yet` and the driver field is `Not assigned`;
when a delivery row exists but carries no driver, the driver field is
`Not assigned`. -/
theorem delivery_lookup_fallback_fields (db : LeedsEats.DB) (oid : Nat) :
    ((∀ o ∈ db.orders, o.order_id ≠ oid) →
      LeedsEats.delivery_lookup_by_id db oid = .notFound oid) ∧
    (∀ o c, db.orders.filter (fun o2 => decide (o2.order_id = oid)) = [o] →
      db.customers.filter (fun c2 => decide (c2.customer_id = o.customer_id)) = [c] →
      ((db.deliveries.filter fun d => decide (d.order_id = o.order_id)) = [] →
        LeedsEats.delivery_lookup_by_id db oid =
          .found o.order_id c.customer_name (round2 o.order_total)
            "Not delivered yet" "Not assigned") ∧
      (∀ d, (db.deliveries.filter fun d2 => decide (d2.order_id = o.order_id)) = [d] →
        d.driver_id = none →
        LeedsEats.delivery_lookup_by_id db oid =
          .found o.order_id c.customer_name (round2 o.order_total)
            (LeedsEats.pyTruthyOr d.delivery_date "Not delivered yet") "Not assigned")) := by
  constructor
  · intro h
    have hflt : db.orders.filter (fun o2 => decide (o2.order_id = oid)) = [] := by
      rw [List.filter_eq_nil_iff]
      intro o ho
      simpa using h o ho
    unfold LeedsEats.delivery_lookup_by_id LeedsEats.lookupRows
    rw [hflt]
    rfl
  · intro o c ho hc
    constructor
    · intro hd
      unfold LeedsEats.delivery_lookup_by_id LeedsEats.lookupRows
      rw [ho]
      simp only [List.flatMap_cons, List.flatMap_nil, List.append_nil]
      rw [hc]
      simp only [List.flatMap_cons, List.flatMap_nil, List.append_nil]
      rw [hd]
      rfl
    · intro d hd hdrv
      unfold LeedsEats.delivery_lookup_by_id LeedsEats.lookupRows
      rw [ho]
      simp only [List.flatMap_cons, List.flatMap_nil, List.append_nil]
      rw [hc]
      simp only [List.flatMap_cons, List.flatMap_nil, List.append_nil]
      rw [hd]
      simp only [List.flatMap_cons, List.flatMap_nil, List.append_nil]
      rw [hdrv]
      rfl

/-- Claim C6, witness: an order with a customer but no delivery row displays
the fallback date and driver text. -/
theorem delivery_lookup_fallback_fields_witness :
    LeedsEats.delivery_lookup_by_id
      (⟨[⟨1, "alice"⟩], [⟨7, 1, 12, "2024-01-02"⟩], [], []⟩ : LeedsEats.DB) 7 =
      .found 7 "alice" (round2 12) "Not delivered yet" "Not assigned" := by
  exact ((delivery_lookup_fallback_fields
    (⟨[⟨1, "alice"⟩], [⟨7, 1, 12, "2024-01-02"⟩], [], []⟩ : LeedsEats.DB) 7).2
    ⟨7, 1, 12, "2024-01-02"⟩ ⟨1, "alice"⟩ (by decide) (by decide)).1 (by decide)

/-! Claims C7 and C10: zero-count groups in the grouped reports. -/

/-- Helper: when the grouping keys are already distinct, first-occurrence
grouping leaves the table unchanged. -/
theorem distinctBy_eq_self {α β : Type} [DecidableEq β] (k : α → β) (l : List α)
    (h : (l.map k).Nodup) : distinctBy k l = l := by
  induction l with
  | nil => simp [distinctBy]
  | cons x xs ih =>
    rw [List.map_cons, List.nodup_cons] at h
    have hflt : xs.filter (fun y => decide (¬ k y = k x)) = xs := by
      rw [List.filter_eq_self]
      intro y hy
      simp only [decide_eq_true_eq]
      intro hk
      exact h.1 (List.mem_map.mpr ⟨y, hy, hk⟩)
    simp only [distinctBy]
    rw [hflt, ih h.2]

/-- Helper: every representative chosen by `distinctBy` is a table row. -/
theorem distinctBy_subset_aux {α β : Type} [DecidableEq β] (k : α → β) :
    ∀ (n : Nat) (l : List α), l.length ≤ n → ∀ a ∈ distinctBy k l, a ∈ l := by
  intro n
  induction n with
  | zero =>
    intro l hl a ha
    cases l with
    | nil => simp [distinctBy] at ha
    | cons x xs => simp at hl
  | succ n ih =>
    intro l hl a ha
    cases l with
    | nil => simp [distinctBy] at ha
    | cons x xs =>
      simp only [distinctBy, List.mem_cons] at ha
      rcases ha with rfl | ha
      · exact List.mem_cons_self _ _
      · have hlen : (xs.filter fun y => decide (¬ k y = k x)).length ≤ n := by
          have := List.length_filter_le (fun y => decide (¬ k y = k x)) xs
          simp only [List.length_cons] at hl
          omega
        exact List.mem_cons_of_mem x (List.mem_of_mem_filter (ih _ hlen a ha))

/-- Helper: `distinctBy` only returns rows of the table. -/
theorem distinctBy_subset {α β : Type} [DecidableEq β] (k : α → β) (l : List α) :
    ∀ a ∈ distinctBy k l, a ∈ l :=
  distinctBy_subset_aux k l.length l le_rfl

/-- Helper, shared by the C7 and C10 theorems: under unique customer ids, a
customer with no orders contributes the row `(name, 0, 0)` to the grouped
spend report. -/
theorem mem_orders_per_customer_of_no_orders (db : LeedsEats.DB)
    (hn : (db.customers.map LeedsEats.Customer.customer_id).Nodup)
    (c : LeedsEats.Customer) (hc : c ∈ db.customers)
    (h0 : ∀ o ∈ db.orders, o.customer_id ≠ c.customer_id) :
    (c.customer_name, 0, (0:ℚ)) ∈ LeedsEats.orders_per_customer db := by
  unfold LeedsEats.orders_per_customer
  rw [(List.perm_insertionSort _ _).mem_iff, distinctBy_eq_self _ _ hn]
  have hflt : db.orders.filter (fun o => decide (o.customer_id = c.customer_id)) = [] := by
    rw [List.filter_eq_nil_iff]
    intro o ho
    simpa using h0 o ho
  refine List.mem_map.mpr ⟨c, hc, ?_⟩
  rw [hflt]
  rfl

/-- Claim C7: under the schema invariant of unique customer and driver ids,
every customer with zero orders appears in the grouped spend report with
order count 0 and total spent 0, and every driver with zero deliveries
appears in the workload report with count 0. -/
theorem zero_count_groups_included (db : LeedsEats.DB)
    (hn : (db.customers.map LeedsEats.Customer.customer_id).Nodup)
    (hd : (db.drivers.map LeedsEats.Driver.driver_id).Nodup) :
    (∀ c ∈ db.customers, (∀ o ∈ db.orders, o.customer_id ≠ c.customer_id) →
      (c.customer_name, 0, (0:ℚ)) ∈ LeedsEats.orders_per_customer db) ∧
    (∀ d ∈ db.drivers, (∀ del ∈ db.deliveries, del.driver_id ≠ some d.driver_id) →
      (d.driver_name, 0) ∈ LeedsEats.driver_workload db) := by
  constructor
  · intro c hc h0
    exact mem_orders_per_customer_of_no_orders db hn c hc h0
  · intro d hdm h0
    unfold LeedsEats.driver_workload
    rw [(List.perm_insertionSort _ _).mem_iff, distinctBy_eq_self _ _ hd]
    have hflt : db.deliveries.filter (fun del => decide (del.driver_id = some d.driver_id))
        = [] := by
      rw [List.filter_eq_nil_iff]
      intro del hdel
      simpa using h0 del hdel
    refine List.mem_map.mpr ⟨d, hdm, ?_⟩
    rw [hflt]
    rfl

/-- Claim C7, witness: a database with one customer, one driver, and no
orders or deliveries shows both zero-count rows. -/
theorem zero_count_groups_included_witness :
    ("carol", 0, (0:ℚ)) ∈ LeedsEats.orders_per_customer
      (⟨[⟨1, "carol"⟩], [], [], [⟨2, "dave"⟩]⟩ : LeedsEats.DB) ∧
    ("dave", 0) ∈ LeedsEats.driver_workload
      (⟨[⟨1, "carol"⟩], [], [], [⟨2, "dave"⟩]⟩ : LeedsEats.DB) := by
  have h := zero_count_groups_included
    (⟨[⟨1, "carol"⟩], [], [], [⟨2, "dave"⟩]⟩ : LeedsEats.DB) (by decide) (by decide)
  exact ⟨h.1 ⟨1, "carol"⟩ (by decide) (by decide), h.2 ⟨2, "dave"⟩ (by decide) (by decide)⟩

/-- Claim C10: both top-N-by-spend reports are built on an inner join with
orders, so every output row stems from a customer group holding at least one
order, whatever N is; a customer with zero orders therefore never appears.
By contrast the un-limited grouped spend report (left join) still lists that
customer with `(name, 0, 0)`. -/
theorem top_n_excludes_zero_order_customers (db2 : Base.DB) (db1 : LeedsEats.DB) (n m : Nat) :
    (∀ r ∈ Base.task5_total_spent_per_customer db2 n,
      ∃ o ∈ db2.orders, o.customer_id = r.customer_id) ∧
    (∀ r ∈ LeedsEats.top_customers_by_spend db1 m,
      ∃ c ∈ db1.customers, (∃ o ∈ db1.orders, o.customer_id = c.customer_id) ∧
        r.1 = c.customer_name) ∧
    ((db1.customers.map LeedsEats.Customer.customer_id).Nodup →
      ∀ c ∈ db1.customers, (∀ o ∈ db1.orders, o.customer_id ≠ c.customer_id) →
      (c.customer_name, 0, (0:ℚ)) ∈ LeedsEats.orders_per_customer db1) := by
  refine ⟨?_, ?_, ?_⟩
  · intro r hr
    unfold Base.task5_total_spent_per_customer at hr
    have hr2 := List.take_subset _ _ hr
    rw [(List.perm_insertionSort _ _).mem_iff] at hr2
    simp only [List.mem_map, List.mem_filter, decide_eq_true_eq] at hr2
    rcases hr2 with ⟨c, ⟨hcg, hne⟩, rfl⟩
    rcases List.exists_mem_of_ne_nil _ hne with ⟨o, ho⟩
    rw [List.mem_filter] at ho
    exact ⟨o, ho.1, by simpa using ho.2⟩
  · intro r hr
    unfold LeedsEats.top_customers_by_spend at hr
    have hr2 := List.take_subset _ _ hr
    rw [(List.perm_insertionSort _ _).mem_iff] at hr2
    simp only [List.mem_map, List.mem_filter, decide_eq_true_eq] at hr2
    rcases hr2 with ⟨c, ⟨hcg, hne⟩, rfl⟩
    rcases List.exists_mem_of_ne_nil _ hne with ⟨o, ho⟩
    rw [List.mem_filter] at ho
    exact ⟨c, distinctBy_subset _ _ c hcg, ⟨o, ho.1, by simpa using ho.2⟩, rfl⟩
  · intro hn c hc h0
    exact mem_orders_per_customer_of_no_orders db1 hn c hc h0

/-- Claim C10, witness: a customer with zero orders still appears, with a
zero row, in the un-limited grouped spend report. -/
theorem top_n_excludes_zero_order_customers_witness :
    ("cathy", 0, (0:ℚ)) ∈ LeedsEats.orders_per_customer
      (⟨[⟨1, "cathy"⟩], [], [], []⟩ : LeedsEats.DB) := by
  exact (top_n_excludes_zero_order_customers (⟨[], [], [], [], []⟩ : Base.DB)
    (⟨[⟨1, "cathy"⟩], [], [], []⟩ : LeedsEats.DB) 5 5).2.2 (by decide)
    ⟨1, "cathy"⟩ (by decide) (by decide)

/-! Claims C2 and C9: the category co-occurrence matrix. -/

/-- Helper: a duplicate-free list contributes no diagonal combination pair. -/
theorem not_mem_pairs_diag (c : String) :
    ∀ (l : List String), l.Nodup → (c, c) ∉ Base.pairs l := by
  intro l
  induction l with
  | nil => simp [Base.pairs]
  | cons x xs ih =>
    intro hnd hmem
    rw [List.nodup_cons] at hnd
    simp only [Base.pairs, List.mem_append, List.mem_map] at hmem
    rcases hmem with ⟨d, hd, heq⟩ | hmem
    · injection heq with h1 h2
      subst h1
      subst h2
      exact hnd.1 hd
    · exact ih hnd.2 hmem

/-- Helper: on a duplicate-free category list, one loop iteration adds
exactly `count c` (that is, 1 when present) to the diagonal entry. -/
theorem addOrder_diag (M : String → String → Nat) (cats : List String)
    (hnd : cats.Nodup) (c : String) :
    Base.addOrder M cats c c = M c c + cats.count c := by
  unfold Base.addOrder
  rw [if_pos rfl, List.count_eq_zero.mpr (not_mem_pairs_diag c cats hnd)]
  omega

/-- Helper: the diagonal of the folded matrix counts the orders whose
category list holds the category. -/
theorem coMatrix_diag_aux (ls : List (List String)) :
    ∀ (M : String → String → Nat), (∀ cats ∈ ls, cats.Nodup) → ∀ c,
      ls.foldl Base.addOrder M c c
        = M c c + ls.countP (fun cats => decide (c ∈ cats)) := by
  induction ls with
  | nil =>
    intro M _ c
    simp
  | cons cats rest ih =>
    intro M h c
    have hnd := h cats (List.mem_cons_self _ _)
    rw [List.foldl_cons, ih _ (fun x hx => h x (List.mem_cons_of_mem _ hx)) c,
      addOrder_diag M cats hnd c, List.countP_cons]
    by_cases hc : c ∈ cats
    · have hd1 : decide (c ∈ cats) = true := by simpa using hc
      rw [List.count_eq_one_of_mem hnd hc, hd1, if_pos rfl]
      omega
    · have hd1 : decide (c ∈ cats) = false := by simpa using hc
      rw [List.count_eq_zero_of_not_mem hc, hd1, if_neg Bool.false_ne_true]
      omega

/-- Helper: one loop iteration preserves symmetry of the matrix entry. -/
theorem addOrder_swap (M : String → String → Nat) (cats : List String) (a b : String)
    (hM : M a b = M b a) : Base.addOrder M cats a b = Base.addOrder M cats b a := by
  unfold Base.addOrder
  rw [hM]
  by_cases hab : a = b
  · subst hab
    omega
  · rw [if_neg hab, if_neg (fun hh => hab hh.symm)]
    omega

/-- Helper: the folded matrix is symmetric whenever the seed is. -/
theorem coMatrix_symm_aux (ls : List (List String)) :
    ∀ (M : String → String → Nat), (∀ a b, M a b = M b a) →
      ∀ a b, ls.foldl Base.addOrder M a b = ls.foldl Base.addOrder M b a := by
  induction ls with
  | nil =>
    intro M hM a b
    exact hM a b
  | cons cats rest ih =>
    intro M hM a b
    rw [List.foldl_cons]
    exact ih _ (fun x y => addOrder_swap M cats x y (hM x y)) a b

/-- Claim C2: the co-occurrence matrix of task 15 is symmetric, and its
diagonal entry for a category is the number of distinct orders having at
least one line item of that category. -/
theorem task15_symmetric_and_diagonal (db : Base.DB) (a b c : String) :
    Base.task15_category_cooccurrence db a b = Base.task15_category_cooccurrence db b a ∧
    Base.task15_category_cooccurrence db c c =
      (Base.orderIds (Base.itemCategoryRows db)).countP
        (fun oid => decide ((oid, c) ∈ Base.itemCategoryRows db)) := by
  unfold Base.task15_category_cooccurrence Base.coMatrix
  constructor
  · apply coMatrix_symm_aux
    intro x y
    rfl
  · rw [coMatrix_diag_aux _ _ ?_ c]
    · rw [List.countP_map]
      simp only [Nat.zero_add]
      apply List.countP_congr
      intro oid _
      simp only [Function.comp_apply, decide_eq_true_eq]
      simp only [Base.orderCats, List.mem_dedup, List.mem_map, List.mem_filter,
        decide_eq_true_eq]
      constructor
      · rintro ⟨⟨r1, r2⟩, ⟨hr, h1⟩, h2⟩
        simp only at h1 h2
        subst h1
        subst h2
        exact hr
      · intro hmem
        exact ⟨(oid, c), ⟨hmem, rfl⟩, rfl⟩
    · intro cats hcats
      rcases List.mem_map.mp hcats with ⟨oid, _, rfl⟩
      exact List.nodup_dedup _

/-- Helper: counting a pair in the combination pairs headed by `x`. -/
theorem count_map_pair (x : String) (xs : List String) (a b : String) :
    ((xs.map fun d => (x, d)).count (a, b)) = if x = a then xs.count b else 0 := by
  induction xs with
  | nil => simp
  | cons y ys ih =>
    simp only [List.map_cons, List.count_cons, ih, beq_iff_eq, Prod.mk.injEq]
    by_cases hxa : x = a
    · subst hxa
      by_cases hyb : b = y
      · simp [hyb]
      · simp [hyb]
    · simp [hxa]

/-- Helper: for distinct categories, the two ordered counts of a combination
pair sum to the product of the element multiplicities — a quantity invariant
under reordering of the category list. -/
theorem pairs_count_two (a b : String) (hab : a ≠ b) :
    ∀ (l : List String),
      (Base.pairs l).count (a, b) + (Base.pairs l).count (b, a)
        = l.count a * l.count b := by
  intro l
  induction l with
  | nil => simp [Base.pairs]
  | cons x xs ih =>
    simp only [Base.pairs, List.count_append, count_map_pair, List.count_cons, beq_iff_eq]
    split_ifs with hxa hxb hxb2
    · exact absurd (hxa.symm.trans hxb) hab
    · have hkey : (xs.count a + 1) * (xs.count b + 0) = xs.count a * xs.count b + xs.count b :=
        by ring
      omega
    · have hkey : (xs.count a + 0) * (xs.count b + 1) = xs.count a * xs.count b + xs.count a :=
        by ring
      omega
    · have hkey : (xs.count a + 0) * (xs.count b + 0) = xs.count a * xs.count b := by ring
      omega

/-- Helper: the doubled diagonal combination count is the number of ordered
duplicate pairs — again invariant under reordering. -/
theorem pairs_count_diag (a : String) :
    ∀ (l : List String),
      (Base.pairs l).count (a, a) + (Base.pairs l).count (a, a)
        = l.count a * (l.count a - 1) := by
  intro l
  induction l with
  | nil => simp [Base.pairs]
  | cons x xs ih =>
    simp only [Base.pairs, List.count_append, count_map_pair, List.count_cons, beq_iff_eq]
    split_ifs with hxa
    · have hkey : (xs.count a + 1) * ((xs.count a + 1) - 1)
          = xs.count a * (xs.count a - 1) + 2 * xs.count a := by
        cases hca : xs.count a with
        | zero => simp
        | succ n =>
          simp only [Nat.add_sub_cancel, Nat.succ_sub_one]
          ring
      omega
    · have hkey : (xs.count a + 0) * ((xs.count a + 0) - 1)
          = xs.count a * (xs.count a - 1) := by
        rw [Nat.add_zero]
      omega

/-- Helper: one loop iteration yields the same matrix entry for any
reordering of the category list — the loop's effect only depends on element
multiplicities. -/
theorem addOrder_perm (M : String → String → Nat) {cats cats2 : List String}
    (h : cats.Perm cats2) (a b : String) :
    Base.addOrder M cats a b = Base.addOrder M cats2 a b := by
  have hcount : ∀ x, cats.count x = cats2.count x := fun x => h.count_eq x
  unfold Base.addOrder
  by_cases hab : a = b
  · subst hab
    have key : (Base.pairs cats).count (a, a) + (Base.pairs cats).count (a, a)
        = (Base.pairs cats2).count (a, a) + (Base.pairs cats2).count (a, a) := by
      rw [pairs_count_diag, pairs_count_diag, hcount a]
    rw [if_pos rfl, if_pos rfl, hcount a]
    omega
  · have key : (Base.pairs cats).count (a, b) + (Base.pairs cats).count (b, a)
        = (Base.pairs cats2).count (a, b) + (Base.pairs cats2).count (b, a) := by
      rw [pairs_count_two a b hab, pairs_count_two a b hab, hcount a, hcount b]
    rw [if_neg hab, if_neg hab]
    omega

/-- Helper: the fold is congruent in a pointwise-equal accumulator. -/
theorem foldl_addOrder_congr (ls : List (List String)) :
    ∀ (M M2 : String → String → Nat), (∀ a b, M a b = M2 a b) →
      ∀ a b, ls.foldl Base.addOrder M a b = ls.foldl Base.addOrder M2 a b := by
  induction ls with
  | nil =>
    intro M M2 h a b
    exact h a b
  | cons cats rest ih =>
    intro M M2 h a b
    rw [List.foldl_cons, List.foldl_cons]
    apply ih
    intro x y
    unfold Base.addOrder
    rw [h x y]

/-- Helper: folding pointwise-permuted category lists produces the same
matrix entries. -/
theorem coMatrix_perm_aux {ls ls2 : List (List String)}
    (h : List.Forall₂ List.Perm ls ls2) :
    ∀ (M : String → String → Nat) (a b : String),
      ls.foldl Base.addOrder M a b = ls2.foldl Base.addOrder M a b := by
  induction h with
  | nil =>
    intro M a b
    rfl
  | @cons cats cats2 rest rest2 hperm _ ih =>
    intro M a b
    rw [List.foldl_cons, List.foldl_cons]
    rw [ih (Base.addOrder M cats) a b]
    exact foldl_addOrder_congr rest2 _ _ (fun x y => addOrder_perm M hperm x y) a b

/-- Claim C9: the embedded report functions are pure functions of the
database state, so two runs over unchanged data agree; the one run-dependent
choice in the cited code — the enumeration order of each order's distinct
category set (`list(set(x))`) inside task 15 — does not affect the produced
matrix: any pointwise reordering of the per-order category lists yields
entry-for-entry the same co-occurrence matrix. -/
theorem report_functions_deterministic (db : Base.DB) (catLists : List (List String))
    (h : List.Forall₂ List.Perm catLists
      ((Base.orderIds (Base.itemCategoryRows db)).map
        (Base.orderCats (Base.itemCategoryRows db))))
    (a b : String) :
    Base.coMatrix catLists a b = Base.task15_category_cooccurrence db a b := by
  unfold Base.task15_category_cooccurrence Base.coMatrix
  exact coMatrix_perm_aux h _ a b

/-- Database used by the claim C9 witness: one order holding one item of
category `a` and one of category `b`. -/
def cooccurrenceWitnessDB : Base.DB :=
  ⟨[], [], [⟨1, 1, 1, 1⟩, ⟨1, 2, 1, 1⟩], [⟨1, "p1", "a", 1⟩, ⟨2, "p2", "b", 1⟩], []⟩

/-- Claim C9, witness: enumerating that order's category set as `[b, a]`
instead of the canonical `[a, b]` yields the same matrix entry. -/
theorem report_functions_deterministic_witness :
    List.Forall₂ List.Perm [["b", "a"]]
      ((Base.orderIds (Base.itemCategoryRows cooccurrenceWitnessDB)).map
        (Base.orderCats (Base.itemCategoryRows cooccurrenceWitnessDB))) ∧
    Base.coMatrix [["b", "a"]] "a" "b"
      = Base.task15_category_cooccurrence cooccurrenceWitnessDB "a" "b" := by
  have hrows : (Base.orderIds (Base.itemCategoryRows cooccurrenceWitnessDB)).map
      (Base.orderCats (Base.itemCategoryRows cooccurrenceWitnessDB)) = [["a", "b"]] := by
    decide
  have hf : List.Forall₂ List.Perm [["b", "a"]]
      ((Base.orderIds (Base.itemCategoryRows cooccurrenceWitnessDB)).map
        (Base.orderCats (Base.itemCategoryRows cooccurrenceWitnessDB))) := by
    rw [hrows]
    exact List.Forall₂.cons (by decide) List.Forall₂.nil
  exact ⟨hf, report_functions_deterministic cooccurrenceWitnessDB [["b", "a"]] hf "a" "b"⟩

/-! Claim C3: the delivery-performance pivot reports. -/

/-- Helper: two-decimal rounding moves a rational by at most 1/200. -/
theorem round2_close (q : ℚ) : |round2 q - q| ≤ 1 / 200 := by
  have h := abs_sub_round (q * 100)
  have h2 : round2 q - q = ((round (q * 100) : ℚ) - q * 100) / 100 := by
    unfold round2
    ring
  rw [h2, abs_div, abs_of_pos (by norm_num : (0:ℚ) < 100), abs_sub_comm]
  linarith

/-- Helper: rounding each summand to two decimals moves a sum by at most
1/200 per summand. -/
theorem sum_round2_close (l : List String) (f : String → ℚ) :
    |(l.map fun s => round2 (f s)).sum - (l.map f).sum| ≤ (l.length : ℚ) * (1 / 200) := by
  induction l with
  | nil => simp
  | cons x xs ih =>
    simp only [List.map_cons, List.sum_cons, List.length_cons]
    have h1 := round2_close (f x)
    have hsplit : round2 (f x) + (xs.map fun s => round2 (f s)).sum - (f x + (xs.map f).sum)
        = (round2 (f x) - f x) + ((xs.map fun s => round2 (f s)).sum - (xs.map f).sum) := by
      ring
    rw [hsplit]
    calc |(round2 (f x) - f x) + ((xs.map fun s => round2 (f s)).sum - (xs.map f).sum)|
        ≤ |round2 (f x) - f x| + |(xs.map fun s => round2 (f s)).sum - (xs.map f).sum| :=
          abs_add _ _
      _ ≤ 1 / 200 + (xs.length : ℚ) * (1 / 200) := add_le_add h1 ih
      _ = ((xs.length : ℚ) + 1) * (1 / 200) := by ring
      _ = (((xs.length + 1 : Nat)) : ℚ) * (1 / 200) := by push_cast; ring

/-- Helper: pulling a constant factor out of a mapped sum. -/
theorem sum_map_mul_const (l : List String) (f : String → ℚ) (c : ℚ) :
    (l.map fun s => f s * c).sum = (l.map f).sum * c := by
  induction l with
  | nil => simp
  | cons x xs ih =>
    simp only [List.map_cons, List.sum_cons, ih]
    ring

/-- Claim C3, counterexample: the by-window pivot report (task 13) appends
no row-total column at all — on a database with a single delivery its column
list is just `[delivered]`; and in the by-customer pivot (task 16) an
observed off-enum status such as `lost` gets a count column but no
percentage column, so the claim that the delivery-performance pivot reports
append a total column and a percentage column per observed status is false
on these inputs. -/
theorem pivot_reports_claim_counterexample :
    ("total" ∉ (Base.task13_delivery_performance_by_window
      (⟨[], [], [], [], [⟨1, "delivered", "morning"⟩]⟩ : Base.DB)).cols) ∧
    ("lost" ∈ Base.observedStatuses16
      (⟨[⟨1, "ann", "bell", "e"⟩], [⟨1, 1, "d", "placed", 5⟩], [], [],
        [⟨1, "lost", "morning"⟩]⟩ : Base.DB) ∧
      "lost_pct" ∉ (Base.task16_delivery_performance_by_customer
        (⟨[⟨1, "ann", "bell", "e"⟩], [⟨1, 1, "d", "placed", 5⟩], [], [],
          [⟨1, "lost", "morning"⟩]⟩ : Base.DB)).cols) := by
  decide

/-- Claim C3, amended: both pivot reports have one count column per distinct
delivery-status value observed in the data (not a fixed enum) and fill
missing (group-key, status) combinations with 0; but only the by-customer
report (task 16) appends a row-total column, and it appends a
percentage-of-total column, rounded to 2 decimals, only for the observed
statuses among the hard-coded `delivered`, `failed`, `scheduled`; the
by-window report (task 13) appends neither totals nor percentages.  For any
task 16 group-key with total greater than 0, provided every observed status
is one of the three hard-coded ones, the percentage columns over all
observed statuses sum to 100 within rounding tolerance (1/200 per status
column). -/
theorem pivot_reports_structure (db : Base.DB) :
    (∀ s, s ∈ (Base.task13_delivery_performance_by_window db).cols ↔
      ∃ d ∈ db.deliveries, d.delivery_status = s) ∧
    (∀ w s, (∀ d ∈ db.deliveries, ¬ (d.delivery_window = w ∧ d.delivery_status = s)) →
      (Base.task13_delivery_performance_by_window db).cell w s = 0) ∧
    ((Base.task13_delivery_performance_by_window db).cols.Nodup ∧
      (Base.observedStatuses16 db).Nodup) ∧
    (∀ s, s ∈ Base.observedStatuses16 db ↔
      ∃ r ∈ Base.customerStatusRows db, r.2 = s) ∧
    (∀ s ∈ Base.observedStatuses16 db,
      s ∈ (Base.task16_delivery_performance_by_customer db).cols) ∧
    ("total" ∈ (Base.task16_delivery_performance_by_customer db).cols) ∧
    (∀ s ∈ Base.fixedStatusList, s ∈ Base.observedStatuses16 db →
      s ++ "_pct" ∈ (Base.task16_delivery_performance_by_customer db).cols) ∧
    (∀ k s, s ∉ (["total", "delivered_pct", "failed_pct", "scheduled_pct"] : List String) →
      (k, s) ∉ Base.customerStatusRows db →
      (Base.task16_delivery_performance_by_customer db).cell k s = 0) ∧
    (∀ k, 0 < (Base.task16_delivery_performance_by_customer db).cell k "total" →
      (∀ s ∈ Base.observedStatuses16 db, s ∈ Base.fixedStatusList) →
      |((Base.observedStatuses16 db).map fun s =>
          (Base.task16_delivery_performance_by_customer db).cell k (s ++ "_pct")).sum - 100|
        ≤ ((Base.observedStatuses16 db).length : ℚ) * (1 / 200)) := by
  refine ⟨?_, ?_, ⟨?_, ?_⟩, ?_, ?_, ?_, ?_, ?_, ?_⟩
  · intro s
    simp only [Base.task13_delivery_performance_by_window, List.mem_dedup, List.map_map,
      List.mem_map, Function.comp_apply]
  · intro w s h
    simp only [Base.task13_delivery_performance_by_window]
    norm_cast
    rw [List.count_eq_zero]
    intro hmem
    rcases List.mem_map.mp hmem with ⟨d, hd, heq⟩
    injection heq with h1 h2
    exact h d hd ⟨h1, h2⟩
  · simp only [Base.task13_delivery_performance_by_window]
    exact List.nodup_dedup _
  · exact List.nodup_dedup _
  · intro s
    simp only [Base.observedStatuses16, List.mem_dedup, List.mem_map]
  · intro s hs
    simp only [Base.task16_delivery_performance_by_customer]
    exact List.mem_append_left _ (List.mem_append_left _ hs)
  · simp only [Base.task16_delivery_performance_by_customer]
    exact List.mem_append_left _ (List.mem_append_right _ (by simp))
  · intro s hsf hso
    simp only [Base.task16_delivery_performance_by_customer]
    refine List.mem_append_right _ (List.mem_map.mpr ⟨s, List.mem_filter.mpr ⟨hsf, ?_⟩, rfl⟩)
    simpa using hso
  · intro k s hnotin hnotmem
    have h1 : ¬ s = "total" := fun hh => hnotin (by simp [hh])
    have h2 : ¬ s = "delivered_pct" := fun hh => hnotin (by simp [hh])
    have h3 : ¬ s = "failed_pct" := fun hh => hnotin (by simp [hh])
    have h4 : ¬ s = "scheduled_pct" := fun hh => hnotin (by simp [hh])
    simp only [Base.task16_delivery_performance_by_customer, if_neg h1, if_neg h2,
      if_neg h3, if_neg h4]
    unfold Base.cnt16
    norm_cast
    rw [List.count_eq_zero]
    exact hnotmem
  · intro k hT hfix
    have hcell_total : (Base.task16_delivery_performance_by_customer db).cell k "total"
        = Base.total16 db k := by
      simp [Base.task16_delivery_performance_by_customer]
    rw [hcell_total] at hT
    have hTne : Base.total16 db k ≠ 0 := ne_of_gt hT
    have hmap : ((Base.observedStatuses16 db).map fun s =>
        (Base.task16_delivery_performance_by_customer db).cell k (s ++ "_pct"))
        = ((Base.observedStatuses16 db).map fun s =>
            round2 (Base.cnt16 db k s / Base.total16 db k * 100)) := by
      apply List.map_congr_left
      intro s hs
      have hsf := hfix s hs
      simp only [Base.fixedStatusList, List.mem_cons, List.not_mem_nil, or_false] at hsf
      rcases hsf with rfl | rfl | rfl
      · simp [Base.task16_delivery_performance_by_customer]
      · simp [Base.task16_delivery_performance_by_customer]
      · simp [Base.task16_delivery_performance_by_customer]
    rw [hmap]
    have hsum : ((Base.observedStatuses16 db).map fun s =>
        Base.cnt16 db k s / Base.total16 db k * 100).sum = 100 := by
      have hcongr : ((Base.observedStatuses16 db).map fun s =>
          Base.cnt16 db k s / Base.total16 db k * 100)
          = ((Base.observedStatuses16 db).map fun s =>
              Base.cnt16 db k s * (100 / Base.total16 db k)) := by
        apply List.map_congr_left
        intro s _
        ring
      rw [hcongr, sum_map_mul_const]
      have : ((Base.observedStatuses16 db).map (Base.cnt16 db k)).sum = Base.total16 db k :=
        rfl
      rw [this]
      field_simp
    have hfinal := sum_round2_close (Base.observedStatuses16 db)
      (fun s => Base.cnt16 db k s / Base.total16 db k * 100)
    rw [hsum] at hfinal
    exact hfinal

/-- Claim C3, witness: a missing (window, status) combination in the
by-window pivot is filled with 0. -/
theorem pivot_reports_structure_witness :
    (Base.task13_delivery_performance_by_window
      (⟨[], [], [], [], [⟨1, "delivered", "morning"⟩]⟩ : Base.DB)).cell "morning" "failed"
      = 0 := by
  exact (pivot_reports_structure
    (⟨[], [], [], [], [⟨1, "delivered", "morning"⟩]⟩ : Base.DB)).2.1 "morning" "failed"
    (by decide)
